import Mathlib

/-!
Verification development for the SchedulAI scheduling engine.

Shallow embedding conventions:
- Times (Python `datetime` values) are natural numbers counting minutes since a
  fixed reference Monday at 00:00, so `hour = t / 60 % 24` matches
  `datetime.hour` and `weekday = t / 1440 % 7` matches `datetime.weekday()`
  (0 = Monday).
- Durations are natural numbers of minutes.
- The external Google services (authentication directory and the calendar/mail
  gateway) are passed in explicitly as function-valued environments.
- Python dictionaries keyed by proposal id are association lists.
-/

/-- Hour of day of a time given in minutes since the reference Monday 00:00,
matching Python `datetime.hour`. -/
def hourOf (t : Nat) : Nat := t / 60 % 24

/-- Weekday of a time given in minutes since the reference Monday 00:00,
matching Python `datetime.weekday()` (0 = Monday, 6 = Sunday). -/
def weekdayOf (t : Nat) : Nat := t / 1440 % 7

/-- English weekday name, matching Python `strftime("%A")`. -/
def dayName (d : Nat) : String :=
  match d with
  | 0 => "Monday"
  | 1 => "Tuesday"
  | 2 => "Wednesday"
  | 3 => "Thursday"
  | 4 => "Friday"
  | 5 => "Saturday"
  | _ => "Sunday"

/-- `app.models` TimeSlot: a half-open time range with an availability flag. -/
structure TimeSlot where
  start_time : Nat
  end_time : Nat
  available : Bool
deriving DecidableEq

/-- Stable insertion of a busy slot into a list sorted by start time; together
with `sortByStart` this models Python `list.sort(key=lambda x: x.start_time)`
(Timsort is stable). -/
def insertByStart (b : TimeSlot) : List TimeSlot → List TimeSlot
  | [] => [b]
  | c :: rest =>
      if b.start_time ≤ c.start_time then b :: c :: rest
      else c :: insertByStart b rest

/-- Stable sort of busy slots by start time ascending
(`busy_slots.sort(key=lambda x: x.start_time)` in `_calculate_free_slots`). -/
def sortByStart : List TimeSlot → List TimeSlot
  | [] => []
  | b :: rest => insertByStart b (sortByStart rest)

/-- The sweep loop of `GoogleService._calculate_free_slots`
(`src/app/services/google_service.py` lines 164-186): walk the (already
sorted) busy slots with a cursor, emitting a free slot for each gap before a
busy slot, advancing the cursor to `max(current_time, busy.end_time)`, and
emitting a trailing free slot if the cursor is still before the horizon end. -/
def calcFreeSweep (current_time end_date : Nat) : List TimeSlot → List TimeSlot
  | [] =>
      if current_time < end_date then
        [{ start_time := current_time, end_time := end_date, available := true }]
      else []
  | busy :: rest =>
      (if current_time < busy.start_time then
        [{ start_time := current_time, end_time := busy.start_time, available := true }]
      else []) ++
      calcFreeSweep (max current_time busy.end_time) end_date rest

/-- `GoogleService._calculate_free_slots` (`google_service.py` lines 156-186):
sort the busy slots by start time, then sweep from the horizon start. -/
def calculate_free_slots (start_date end_date : Nat) (busy_slots : List TimeSlot) :
    List TimeSlot :=
  calcFreeSweep start_date end_date (sortByStart busy_slots)

/-- `SchedulingAgent._calculate_slot_score` (`agent_service.py` lines 562-593),
translated statement by statement; `work_start` and `work_end` are accepted but,
as in the source, never used. All score contributions are integral, so the
Python float is modelled as a natural number. -/
def calculate_slot_score (slot_start : Nat) (priority : String)
    (work_start work_end : Nat) : Nat :=
  let score := 100
  let hour := hourOf slot_start
  let score :=
    if (10 ≤ hour ∧ hour ≤ 11) ∨ (14 ≤ hour ∧ hour ≤ 15) then score + 20
    else if (9 ≤ hour ∧ hour ≤ 12) ∨ (13 ≤ hour ∧ hour ≤ 16) then score + 10
    else score
  let day := weekdayOf slot_start
  let score :=
    if 1 ≤ day ∧ day ≤ 3 then score + 15
    else if day = 0 ∨ day = 4 then score + 5
    else score
  let score :=
    if priority = "high" then
      score + (7 - day) * 5 + (if hour ≤ 12 then 10 else 0)
    else if priority = "low" then
      score + day * 2 + (if 14 ≤ hour then 5 else 0)
    else score
  score

/-- The time-of-day component of `_calculate_slot_score` as the code computes
it: the +10 ranges `9 <= hour <= 12` and `13 <= hour <= 16` are inclusive at
both ends. -/
def time_bonus (hour : Nat) : Nat :=
  if (10 ≤ hour ∧ hour ≤ 11) ∨ (14 ≤ hour ∧ hour ≤ 15) then 20
  else if (9 ≤ hour ∧ hour ≤ 12) ∨ (13 ≤ hour ∧ hour ≤ 16) then 10
  else 0

/-- The day-of-week component of `_calculate_slot_score`. -/
def day_bonus (day : Nat) : Nat :=
  if 1 ≤ day ∧ day ≤ 3 then 15
  else if day = 0 ∨ day = 4 then 5
  else 0

/-- The priority component of `_calculate_slot_score`. -/
def priority_adjustment (priority : String) (day hour : Nat) : Nat :=
  if priority = "high" then (7 - day) * 5 + (if hour ≤ 12 then 10 else 0)
  else if priority = "low" then day * 2 + (if 14 ≤ hour then 5 else 0)
  else 0

/-- The time-of-day bonus as the spec claims it (claim C4): +20 on the four
preferred hours, else +10 on the half-open ranges [9,12) and [13,16), which
exclude hours 12 and 16. This follows the claim wording, not the code. -/
def time_bonus_claimed (hour : Nat) : Nat :=
  if hour = 10 ∨ hour = 11 ∨ hour = 14 ∨ hour = 15 then 20
  else if (9 ≤ hour ∧ hour < 12) ∨ (13 ≤ hour ∧ hour < 16) then 10
  else 0

/-- One free-slot record of the availability data consumed by
`_analyze_optimal_slots`: the dictionaries built in
`_get_calendar_availability` carry `start_time`, `end_time` and a precomputed
`duration_minutes`. -/
structure FreeSlotData where
  start_time : Nat
  end_time : Nat
  duration_minutes : Nat
deriving DecidableEq

/-- One participant entry of the availability data consumed by
`_analyze_optimal_slots`. -/
structure ParticipantData where
  participant_email : String
  is_authenticated : Bool
  free_slots : List FreeSlotData
deriving DecidableEq

/-- A scored candidate slot as built in `_analyze_optimal_slots`
(lines 526-532); the purely cosmetic `formatted_time` string is omitted. -/
structure CandidateSlot where
  start_time : Nat
  end_time : Nat
  score : Nat
  day_of_week : String
deriving DecidableEq

/-- The work-hours test of `_analyze_optimal_slots` line 498: the slot is
skipped when `slot_start.hour < work_start or slot_end.hour > work_end`, where
`slot_start`/`slot_end` are the bounds of the participant free slot itself. -/
def rejected_by_work_hours (work_start work_end : Nat) (slot : FreeSlotData) : Bool :=
  decide (hourOf slot.start_time < work_start) ||
  decide (work_end < hourOf slot.end_time)

/-- The duration test of `_analyze_optimal_slots` line 502: the slot is skipped
when its `duration_minutes` field is below the requested duration. -/
def too_short (duration_minutes : Nat) (slot : FreeSlotData) : Bool :=
  decide (slot.duration_minutes < duration_minutes)

/-- The per-participant containment test of `_analyze_optimal_slots`
lines 508-516: some free slot of the other participant must start at or before
the candidate start and end at or after candidate start plus duration. -/
def participant_free_for (duration_minutes slot_start : Nat)
    (other : ParticipantData) : Bool :=
  other.free_slots.any fun os =>
    decide (os.start_time ≤ slot_start) &&
    decide (slot_start + duration_minutes ≤ os.end_time)

/-- The `works_for_all` loop of `_analyze_optimal_slots` lines 506-520. -/
def works_for_all (duration_minutes slot_start : Nat)
    (others : List ParticipantData) : Bool :=
  others.all (participant_free_for duration_minutes slot_start)

/-- Candidate construction of `_analyze_optimal_slots` lines 522-532: the
candidate starts at the free slot start and ends `duration_minutes` later. -/
def make_candidate (duration_minutes : Nat) (priority : String)
    (work_start work_end : Nat) (slot : FreeSlotData) : CandidateSlot :=
  { start_time := slot.start_time,
    end_time := slot.start_time + duration_minutes,
    score := calculate_slot_score slot.start_time priority work_start work_end,
    day_of_week := dayName (weekdayOf slot.start_time) }

/-- The `common_slots` accumulation of `_analyze_optimal_slots` lines 491-532:
iterate over the first (driver) participant free slots, skipping those outside
work hours, too short, or not contained in a free slot of every other
authenticated participant; each surviving slot yields one candidate. -/
def common_slots_of (base : ParticipantData) (others : List ParticipantData)
    (duration_minutes : Nat) (priority : String)
    (work_start work_end : Nat) : List CandidateSlot :=
  (base.free_slots.filter fun slot =>
      !(rejected_by_work_hours work_start work_end slot) &&
      !(too_short duration_minutes slot) &&
      works_for_all duration_minutes slot.start_time others).map
    (make_candidate duration_minutes priority work_start work_end)

/-- Stable insertion for the descending-score sort; an element is placed before
the first element whose score does not exceed it, so elements with equal score
keep their original relative order, exactly as Python
`list.sort(key=..., reverse=True)` (stable) does. -/
def insertByScore (x : CandidateSlot) : List CandidateSlot → List CandidateSlot
  | [] => [x]
  | y :: rest =>
      if y.score ≤ x.score then x :: y :: rest
      else y :: insertByScore x rest

/-- Stable sort by score descending, modelling line 535
`common_slots.sort(key=lambda x: x["score"], reverse=True)`. -/
def sortByScoreDesc : List CandidateSlot → List CandidateSlot
  | [] => []
  | x :: rest => insertByScore x (sortByScoreDesc rest)

/-- Lines 535-536 of `_analyze_optimal_slots`: sort by score descending and
truncate to `max_suggestions`. -/
def rank_slots (max_suggestions : Nat) (slots : List CandidateSlot) :
    List CandidateSlot :=
  (sortByScoreDesc slots).take max_suggestions

/-- Python default of the `max_suggestions` parameter of
`_analyze_optimal_slots`. -/
def max_suggestions_default : Nat := 3

/-- Error message returned by `_analyze_optimal_slots` when no authenticated
participant has availability data. -/
def errNoAuthParticipants : String :=
  "No authenticated participants with availability data found"

/-- Result of `_analyze_optimal_slots`: either the failure dictionary of
lines 483-489 or the success dictionary of lines 551-557 (keeping the fields
the claims are about). -/
inductive AnalyzeOutcome where
  | failure (error : String)
  | success (suggested_slots : List CandidateSlot) (total_slots_found : Nat)
deriving DecidableEq

/-- `SchedulingAgent._analyze_optimal_slots` (`agent_service.py`
lines 462-560): keep the authenticated participants that have free slots, fail
if none remain, otherwise intersect from the first one, score, sort and
truncate. -/
def analyze_optimal_slots (availability_data : List ParticipantData)
    (duration_minutes : Nat) (priority : String)
    (work_start work_end max_suggestions : Nat) : AnalyzeOutcome :=
  let authenticated_participants := availability_data.filter fun p =>
    p.is_authenticated && !p.free_slots.isEmpty
  match authenticated_participants with
  | [] => .failure errNoAuthParticipants
  | base :: others =>
      let common_slots :=
        common_slots_of base others duration_minutes priority work_start work_end
      .success (rank_slots max_suggestions common_slots) common_slots.length

/-- `_analyze_optimal_slots` with `max_suggestions` left at its Python default
of 3. -/
def analyze_optimal_slots_default (availability_data : List ParticipantData)
    (duration_minutes : Nat) (priority : String)
    (work_start work_end : Nat) : AnalyzeOutcome :=
  analyze_optimal_slots availability_data duration_minutes priority
    work_start work_end max_suggestions_default

/-- `app.models` Participant (only the fields the scheduling core reads). -/
structure Participant where
  name : String
  email : String
deriving DecidableEq

/-- `app.models` MeetingRequest (only the fields the scheduling core reads). -/
structure MeetingRequest where
  title : String
  description : String
  duration_minutes : Nat
  organizer : Participant
  participants : List Participant
  priority : String
  preferred_days : List String
deriving DecidableEq

/-- Modelled from the spec: `MeetingRequest.get_all_emails` lives in
`app/models/meeting.py`, which is not under `src/`; per its call sites and the
spec it returns the organizer email followed by the participant emails. -/
def get_all_emails (mr : MeetingRequest) : List String :=
  mr.organizer.email :: mr.participants.map Participant.email

/-- `app.models` MeetingProposal as used by `agent_service.py` and
`meetings.py`. The defining module `app/models/meeting.py` is not under
`src/`; the fields below are those the code reads and writes, plus
`confirmed_slot_index`, modelled from the spec (Proposal.confirmedSlotIndex,
optional, unset at creation). No statement in `src/` ever writes it. -/
structure MeetingProposal where
  id : String
  meeting_request : MeetingRequest
  suggested_slots : List TimeSlot
  reasoning : String
  status : String
  created_at : Nat
  confirmed_slot_index : Option Int
deriving DecidableEq

/-- The agent `self.proposals` dictionary, keyed by proposal id. -/
abbrev ProposalStore := List (String × MeetingProposal)

/-- Dictionary lookup `self.proposals[proposal_id]` (first binding wins, as
later inserts are prepended). -/
def lookupProposal (ps : ProposalStore) (pid : String) : Option MeetingProposal :=
  match ps with
  | [] => none
  | (k, p) :: rest => if k = pid then some p else lookupProposal rest pid

/-- The in-place mutation `proposal.status = "confirmed"` of
`confirm_meeting` line 833: only the status field of the stored proposal
changes; every other field is kept. -/
def setConfirmed (ps : ProposalStore) (pid : String) : ProposalStore :=
  ps.map fun kv =>
    if kv.1 = pid then (kv.1, { kv.2 with status := "confirmed" }) else kv

/-- `app.models` CalendarEvent (the fields `_create_calendar_event` fills). -/
structure CalendarEvent where
  title : String
  description : String
  start_time : Nat
  end_time : Nat
  attendees : List String
  location : String
deriving DecidableEq

/-- Modelled from the spec: the multi-user Google service used by
`agent_service.py` (`is_user_authenticated`, the two-argument
`create_calendar_event` and `send_email`) is not under `src/`; per the spec it
is an authentication directory `isAuthenticated(id) → bool` plus a fallible
gateway `createEvent(meeting, organizerId) → eventId | Error` and
`sendEmail(message, senderId) → ok | Error`. -/
structure ConfirmEnv where
  is_user_authenticated : String → Bool
  create_event : CalendarEvent → String → Except String String
  send_email : List String → String → Bool

/-- Result dictionary of the `_create_calendar_event` tool
(`agent_service.py` lines 595-628). -/
inductive EventResult where
  | ok (event_id : String)
  | failed (error : String)
deriving DecidableEq

/-- `SchedulingAgent._create_calendar_event` (lines 595-628): re-validate the
organizer, then call the gateway; any gateway error becomes a failure
dictionary. -/
def create_calendar_event_tool (env : ConfirmEnv) (title description : String)
    (start_time end_time : Nat) (attendees : List String)
    (organizer_email : String) : EventResult :=
  if env.is_user_authenticated organizer_email = false then
    .failed ("Organizer " ++ organizer_email ++
      " is not authenticated. Please authenticate first.")
  else
    match env.create_event
        { title := title, description := description, start_time := start_time,
          end_time := end_time, attendees := attendees, location := "" }
        organizer_email with
    | .ok event_id => .ok event_id
    | .error msg => .failed msg

/-- Python list indexing semantics: a non-negative index selects from the
front, an index in `[-len, -1]` selects from the back, anything below raises
IndexError (modelled as `none`). -/
def pyGet (l : List TimeSlot) (i : Int) : Option TimeSlot :=
  if 0 ≤ i then l.get? i.toNat
  else if -(l.length : Int) ≤ i then l.get? (i + l.length).toNat
  else none

/-- Error message of `confirm_meeting` line 793. -/
def errProposalNotFound : String := "Proposal not found"

/-- Error message of `confirm_meeting` line 797. -/
def errInvalidSlotIndex : String := "Invalid slot index"

/-- Name of the uncaught Python exception raised by
`proposal.suggested_slots[slot_index]` when `slot_index < -len`. -/
def exnIndexError : String := "IndexError"

/-- Observable outcome of `confirm_meeting`: the returned dictionary
(`success` true with event id and confirmed slot bounds, or `success` false
with an error message), or an uncaught exception. -/
inductive ConfirmOutcome where
  | failure (error : String)
  | raised (exn : String)
  | success (event_id : String) (confirmed_start confirmed_end : Nat)
deriving DecidableEq

/-- Externally visible side effects of one `confirm_meeting` call: calendar
events created through the gateway and confirmation emails sent. -/
structure ConfirmEffects where
  events : List CalendarEvent
  emails : Nat
deriving DecidableEq

/-- No side effects. -/
def noEffects : ConfirmEffects := { events := [], emails := 0 }

/-- `SchedulingAgent.confirm_meeting` (`agent_service.py` lines 790-847),
line by line: unknown id fails; `slot_index >= len(suggested_slots)` fails
with the invalid-index message (no lower bound is checked, so negative indices
fall through to Python indexing); the selected slot is read; the organizer
must be authenticated; the calendar event is created and, on success, the
confirmation email is sent and `proposal.status` is set to `"confirmed"`.
The proposal status is never inspected. -/
def confirm_meeting (env : ConfirmEnv) (proposals : ProposalStore)
    (proposal_id : String) (slot_index : Int) :
    ConfirmOutcome × ProposalStore × ConfirmEffects :=
  match lookupProposal proposals proposal_id with
  | none => (.failure errProposalNotFound, proposals, noEffects)
  | some proposal =>
    if (proposal.suggested_slots.length : Int) ≤ slot_index then
      (.failure errInvalidSlotIndex, proposals, noEffects)
    else
      match pyGet proposal.suggested_slots slot_index with
      | none => (.raised exnIndexError, proposals, noEffects)
      | some selected_slot =>
        let all_attendees := get_all_emails proposal.meeting_request
        let organizer_email := proposal.meeting_request.organizer.email
        if env.is_user_authenticated organizer_email = false then
          (.failure ("Organizer " ++ organizer_email ++
              " is not authenticated. Cannot create calendar event."),
            proposals, noEffects)
        else
          match create_calendar_event_tool env proposal.meeting_request.title
              proposal.meeting_request.description selected_slot.start_time
              selected_slot.end_time all_attendees organizer_email with
          | .ok event_id =>
              let _ := env.send_email all_attendees organizer_email
              (.success event_id selected_slot.start_time selected_slot.end_time,
                setConfirmed proposals proposal_id,
                { events := [{ title := proposal.meeting_request.title,
                               description := proposal.meeting_request.description,
                               start_time := selected_slot.start_time,
                               end_time := selected_slot.end_time,
                               attendees := all_attendees, location := "" }],
                  emails := 1 })
          | .failed err => (.failure err, proposals, noEffects)

/-- Per-participant availability response built by
`GoogleService.get_calendar_availability` (`google_service.py`
lines 103-150). Because `_calculate_free_slots` sorts the passed list in
place, the stored `busy_slots` are the sorted list. -/
structure AvailabilityResponse where
  participant_email : String
  free_slots : List TimeSlot
  busy_slots : List TimeSlot
deriving DecidableEq

/-- `GoogleService.get_calendar_availability` (`google_service.py`
lines 103-150): the loop issues one freebusy query per requested participant
email, with no access-control filtering; a query that raises (HttpError) is
replaced by empty free and busy lists. -/
def get_calendar_availability (fetch : String → Except String (List TimeSlot))
    (participant_emails : List String) (start_date end_date : Nat) :
    List AvailabilityResponse :=
  participant_emails.map fun em =>
    match fetch em with
    | .ok busy_times =>
        { participant_email := em,
          free_slots := calculate_free_slots start_date end_date busy_times,
          busy_slots := sortByStart busy_times }
    | .error _ =>
        { participant_email := em, free_slots := [], busy_slots := [] }

/-- The set of participants for which the loop of `get_calendar_availability`
issues a freebusy query: every requested email, unconditionally (the query on
lines 111-118 precedes any failure handling). -/
def queried_participants (participant_emails : List String) : List String :=
  participant_emails

/-- Modelled from the spec: `auth_manager.validate_access`, called by
`_get_calendar_availability` (`agent_service.py` line 419), is not under
`src/`; per the spec (AccessController) it splits the requested participants
into accessible (authenticated) and denied. -/
def validate_access (authenticated_users participant_emails : List String) :
    List String × List String :=
  (participant_emails.filter fun e => decide (e ∈ authenticated_users),
   participant_emails.filter fun e => decide (e ∉ authenticated_users))

/-- One entry of the availability data built by
`SchedulingAgent._get_calendar_availability` (lines 428-450). -/
structure AvailabilityEntry where
  participant_email : String
  is_authenticated : Bool
  free_slots : List FreeSlotData
  busy_slots : List (Nat × Nat)
deriving DecidableEq

/-- `SchedulingAgent._get_calendar_availability` (`agent_service.py`
lines 409-457): classify access, query availability for every participant,
then tag each response with `is_authenticated` and keep only the free slots at
least as long as the requested duration. -/
def agent_get_calendar_availability (authenticated_users : List String)
    (fetch : String → Except String (List TimeSlot))
    (participant_emails : List String) (start_date end_date : Nat)
    (duration_minutes : Nat) : List AvailabilityEntry :=
  let accessible := (validate_access authenticated_users participant_emails).1
  (get_calendar_availability fetch participant_emails start_date end_date).map
    fun r =>
      { participant_email := r.participant_email,
        is_authenticated := decide (r.participant_email ∈ accessible),
        free_slots :=
          ((r.free_slots.filter fun s =>
              (duration_minutes : Int) ≤ (s.end_time : Int) - (s.start_time : Int)).map
            fun s => { start_time := s.start_time, end_time := s.end_time,
                       duration_minutes := s.end_time - s.start_time }),
        busy_slots := r.busy_slots.map fun s => (s.start_time, s.end_time) }

/-- Result dictionary of `schedule_meeting` / `_process_agent_response`
(the fields the claims are about). -/
structure AgentScheduleResult where
  success : Bool
  proposal_id : Option String
  suggested_slots : List CandidateSlot
  reasoning : String
deriving DecidableEq

/-- The proposal-persistence tail of `_process_agent_response`
(`agent_service.py` lines 356-390): only a non-empty suggested-slot list
inserts a proposal into `self.proposals`; the returned dictionary reports
success with the pre-generated proposal id either way. -/
def process_agent_response (proposals : ProposalStore) (proposal_id : String)
    (meeting_request : MeetingRequest) (suggested_slots : List CandidateSlot)
    (reasoning : String) (now : Nat) : AgentScheduleResult × ProposalStore :=
  let proposals1 :=
    if suggested_slots.isEmpty then proposals
    else
      (proposal_id,
        { id := proposal_id,
          meeting_request := meeting_request,
          suggested_slots := suggested_slots.map fun c =>
            { start_time := c.start_time, end_time := c.end_time, available := true },
          reasoning := reasoning,
          status := "pending",
          created_at := now,
          confirmed_slot_index := none }) :: proposals
  ({ success := true, proposal_id := some proposal_id,
     suggested_slots := suggested_slots, reasoning := reasoning }, proposals1)

/-- Outcome of the `GET /proposal/{proposal_id}` route
(`meetings.py` lines 169-201). -/
inductive ProposalStatusOutcome where
  | http404 (detail : String)
  | ok (status : String) (meeting_title : String) (reasoning : String)
      (num_slots : Nat)
deriving DecidableEq

/-- `get_proposal_status` route handler (`meetings.py` lines 176-201): 404
with detail `"Proposal not found"` for an unknown id, otherwise a projection
of the stored proposal. -/
def get_proposal_status (proposals : ProposalStore) (proposal_id : String) :
    ProposalStatusOutcome :=
  match lookupProposal proposals proposal_id with
  | none => .http404 errProposalNotFound
  | some p => .ok p.status p.meeting_request.title p.reasoning
      p.suggested_slots.length

/-- Ranking order claimed for the suggestion list: higher score first, ties
resolved by earlier start. -/
def rankedBefore (a b : CandidateSlot) : Prop :=
  b.score < a.score ∨ (a.score = b.score ∧ a.start_time < b.start_time)

/-- The priority string used throughout the concrete scenarios
(`meeting_requirements.get("priority", "medium")`). -/
def prioMedium : String := "medium"

/-- Scenario B participant A: authenticated, free on the reference Monday from
09:00 (minute 540) to 12:00 (minute 720). -/
def scenarioA : ParticipantData :=
  { participant_email := "a",
    is_authenticated := true,
    free_slots := [{ start_time := 540, end_time := 720, duration_minutes := 180 }] }

/-- Scenario B participant B: authenticated, free on the reference Monday from
10:00 (minute 600) to 11:30 (minute 690). -/
def scenarioB : ParticipantData :=
  { participant_email := "b",
    is_authenticated := true,
    free_slots := [{ start_time := 600, end_time := 690, duration_minutes := 90 }] }

/-- Driver participant for the C6 counterexample: a single free interval from
09:00 (minute 540) to 18:00 (minute 1080) on the reference Monday. -/
def lateDriver : ParticipantData :=
  { participant_email := "a",
    is_authenticated := true,
    free_slots := [{ start_time := 540, end_time := 1080, duration_minutes := 540 }] }

/-- Driver participant for the C9 witness: two free Monday intervals with
strictly ascending starts. -/
def twoSlotDriver : ParticipantData :=
  { participant_email := "a",
    is_authenticated := true,
    free_slots := [{ start_time := 540, end_time := 720, duration_minutes := 180 },
                   { start_time := 780, end_time := 840, duration_minutes := 60 }] }

/-- Concrete meeting request shared by the confirmation scenarios. -/
def mrSync : MeetingRequest :=
  { title := "Sync",
    description := "d",
    duration_minutes := 30,
    organizer := { name := "Org", email := "org@example.com" },
    participants := [{ name := "P", email := "p@example.com" }],
    priority := prioMedium,
    preferred_days := [] }

/-- Event id handed back by the concrete gateway below. -/
def eventIdNew : String := "evt-new"

/-- Concrete environment: every user authenticated, the gateway always
succeeds. -/
def envAllOk : ConfirmEnv :=
  { is_user_authenticated := fun _ => true,
    create_event := fun _ _ => .ok eventIdNew,
    send_email := fun _ _ => true }

/-- Proposal id used in the C1 scenario. -/
def pid1 : String := "p1"

/-- Proposal id used in the C5 scenario. -/
def pid2 : String := "p2"

/-- Proposal id used in the C7 scenario. -/
def pid3 : String := "p3"

/-- A fresh proposal id absent from the store (C10). -/
def pidFresh : String := "fresh"

/-- Stub reasoning text. -/
def reasonStub : String := "r"

/-- A proposal that is already CONFIRMED, holding one suggested slot
10:00-10:30 (minutes 600-630). -/
def proposalConfirmed : MeetingProposal :=
  { id := pid1,
    meeting_request := mrSync,
    suggested_slots := [{ start_time := 600, end_time := 630, available := true }],
    reasoning := reasonStub,
    status := "confirmed",
    created_at := 0,
    confirmed_slot_index := none }

/-- Store holding only the already-confirmed proposal. -/
def storeConfirmed : ProposalStore := [(pid1, proposalConfirmed)]

/-- The calendar event that a (re-)confirmation of `proposalConfirmed` slot 0
creates through the gateway. -/
def eventSync : CalendarEvent :=
  { title := "Sync",
    description := "d",
    start_time := 600,
    end_time := 630,
    attendees := ["org@example.com", "p@example.com"],
    location := "" }

/-- A PENDING proposal with three suggested slots (Scenario E / C5). -/
def proposalPending3 : MeetingProposal :=
  { id := pid2,
    meeting_request := mrSync,
    suggested_slots := [{ start_time := 600, end_time := 630, available := true },
                        { start_time := 660, end_time := 690, available := true },
                        { start_time := 720, end_time := 750, available := true }],
    reasoning := reasonStub,
    status := "pending",
    created_at := 0,
    confirmed_slot_index := none }

/-- Store holding only the three-slot pending proposal. -/
def storePending3 : ProposalStore := [(pid2, proposalPending3)]

/-- A PENDING proposal with one suggested slot (C7 scenario). -/
def proposalPending1 : MeetingProposal :=
  { id := pid3,
    meeting_request := mrSync,
    suggested_slots := [{ start_time := 600, end_time := 630, available := true }],
    reasoning := reasonStub,
    status := "pending",
    created_at := 0,
    confirmed_slot_index := none }

/-- Store holding only the one-slot pending proposal. -/
def storePending1 : ProposalStore := [(pid3, proposalPending1)]

/-- Concrete gateway fetch returning an empty busy list for every participant
(what the freebusy API yields for a calendar it cannot inspect: no busy data,
no exception). -/
def fetchEmptyBusy : String → Except String (List TimeSlot) := fun _ => .ok []

/-- First participant email of the C8 scenario. -/
def userA : String := "a"

/-- Second (denied) participant email of the C8 scenario. -/
def userB : String := "b"

lemma mem_insertByStart {a b : TimeSlot} {l : List TimeSlot} :
    a ∈ insertByStart b l ↔ a = b ∨ a ∈ l := by
  induction l with
  | nil => simp [insertByStart]
  | cons c rest ih =>
      simp only [insertByStart]
      split
      · simp
      · simp only [List.mem_cons, ih]
        tauto

lemma mem_sortByStart {a : TimeSlot} {l : List TimeSlot} :
    a ∈ sortByStart l ↔ a ∈ l := by
  induction l with
  | nil => simp [sortByStart]
  | cons b rest ih =>
      simp only [sortByStart, mem_insertByStart, ih, List.mem_cons]

lemma pairwise_insertByStart (b : TimeSlot) (l : List TimeSlot)
    (h : l.Pairwise fun x y => x.start_time ≤ y.start_time) :
    (insertByStart b l).Pairwise fun x y => x.start_time ≤ y.start_time := by
  induction l with
  | nil => simp [insertByStart]
  | cons c rest ih =>
      simp only [insertByStart]
      cases h
      case cons hrest hc =>
        split
        case isTrue hbc =>
          refine List.Pairwise.cons ?_ (List.Pairwise.cons hc hrest)
          intro z hz
          rcases List.mem_cons.1 hz with rfl | hz
          · exact hbc
          · exact le_trans hbc (hc z hz)
        case isFalse hbc =>
          refine List.Pairwise.cons ?_ (ih hrest)
          intro z hz
          rcases mem_insertByStart.1 hz with rfl | hz
          · exact le_of_lt (lt_of_not_le hbc)
          · exact hc z hz

lemma sortByStart_pairwise (l : List TimeSlot) :
    (sortByStart l).Pairwise fun x y => x.start_time ≤ y.start_time := by
  induction l with
  | nil => simp [sortByStart]
  | cons b rest ih => exact pairwise_insertByStart b (sortByStart rest) ih

lemma calcFreeSweep_start_le (l : List TimeSlot) :
    ∀ cur e f, f ∈ calcFreeSweep cur e l → cur ≤ f.start_time := by
  induction l with
  | nil =>
      intro cur e f hf
      simp only [calcFreeSweep] at hf
      split at hf
      · rcases List.mem_singleton.1 hf with rfl
        exact le_refl _
      · exact absurd hf (List.not_mem_nil f)
  | cons b rest ih =>
      intro cur e f hf
      simp only [calcFreeSweep, List.mem_append] at hf
      rcases hf with hf | hf
      · split at hf
        · rcases List.mem_singleton.1 hf with rfl
          exact le_refl _
        · exact absurd hf (List.not_mem_nil f)
      · exact le_trans (le_max_left _ _) (ih (max cur b.end_time) e f hf)

lemma calcFreeSweep_bounds (l : List TimeSlot) :
    ∀ cur e, (∀ b ∈ l, b.start_time ≤ e) →
      ∀ f ∈ calcFreeSweep cur e l,
        cur ≤ f.start_time ∧ f.start_time < f.end_time ∧ f.end_time ≤ e := by
  induction l with
  | nil =>
      intro cur e _ f hf
      simp only [calcFreeSweep] at hf
      split at hf
      case isTrue hlt =>
        rcases List.mem_singleton.1 hf with rfl
        exact ⟨le_refl _, hlt, le_refl _⟩
      case isFalse => exact absurd hf (List.not_mem_nil f)
  | cons b rest ih =>
      intro cur e hbe f hf
      simp only [calcFreeSweep, List.mem_append] at hf
      rcases hf with hf | hf
      · split at hf
        case isTrue hlt =>
          rcases List.mem_singleton.1 hf with rfl
          exact ⟨le_refl _, hlt, hbe b (List.mem_cons_self b rest)⟩
        case isFalse => exact absurd hf (List.not_mem_nil f)
      · have := ih (max cur b.end_time) e
          (fun c hc => hbe c (List.mem_cons_of_mem b hc)) f hf
        exact ⟨le_trans (le_max_left _ _) this.1, this.2⟩

lemma calcFreeSweep_chain (l : List TimeSlot) :
    ∀ cur e, (∀ b ∈ l, b.start_time ≤ b.end_time) →
      (calcFreeSweep cur e l).Pairwise fun f g => f.end_time ≤ g.start_time := by
  induction l with
  | nil =>
      intro cur e _
      simp only [calcFreeSweep]
      split
      · exact List.pairwise_singleton _ _
      · exact List.Pairwise.nil
  | cons b rest ih =>
      intro cur e hwf
      simp only [calcFreeSweep]
      refine List.pairwise_append.2 ⟨?_, ?_, ?_⟩
      · split
        · exact List.pairwise_singleton _ _
        · exact List.Pairwise.nil
      · exact ih (max cur b.end_time) e
          (fun c hc => hwf c (List.mem_cons_of_mem b hc))
      · intro f hf g hg
        split at hf
        · rcases List.mem_singleton.1 hf with rfl
          have hg1 := calcFreeSweep_start_le rest (max cur b.end_time) e g hg
          have hbb := hwf b (List.mem_cons_self b rest)
          exact le_trans hbb (le_trans (le_max_right _ _) hg1)
        · exact absurd hf (List.not_mem_nil f)

lemma calcFreeSweep_cover (l : List TimeSlot) :
    ∀ cur e t, cur ≤ t → t < e →
      (∃ f ∈ calcFreeSweep cur e l, f.start_time ≤ t ∧ t < f.end_time) ∨
      ∃ b ∈ l, b.start_time ≤ t ∧ t < b.end_time := by
  induction l with
  | nil =>
      intro cur e t hct hte
      refine Or.inl ?_
      refine ⟨{ start_time := cur, end_time := e, available := true }, ?_, hct, hte⟩
      simp only [calcFreeSweep]
      rw [if_pos (lt_of_le_of_lt hct hte)]
      exact List.mem_singleton.2 rfl
  | cons b rest ih =>
      intro cur e t hct hte
      by_cases hb1 : t < b.start_time
      · refine Or.inl ?_
        refine ⟨{ start_time := cur, end_time := b.start_time, available := true },
          ?_, hct, hb1⟩
        simp only [calcFreeSweep, List.mem_append]
        refine Or.inl ?_
        rw [if_pos (lt_of_le_of_lt hct hb1)]
        exact List.mem_singleton.2 rfl
      · by_cases hb2 : t < b.end_time
        · exact Or.inr ⟨b, List.mem_cons_self b rest, le_of_not_lt hb1, hb2⟩
        · have hmax : max cur b.end_time ≤ t :=
            max_le hct (le_of_not_lt hb2)
          rcases ih (max cur b.end_time) e t hmax hte with ⟨f, hf, hft⟩ | ⟨c, hc, hct2⟩
          · refine Or.inl ⟨f, ?_, hft⟩
            simp only [calcFreeSweep, List.mem_append]
            exact Or.inr hf
          · exact Or.inr ⟨c, List.mem_cons_of_mem b hc, hct2⟩

lemma calcFreeSweep_disjoint (l : List TimeSlot) :
    ∀ cur e, l.Pairwise (fun x y => x.start_time ≤ y.start_time) →
      ∀ f ∈ calcFreeSweep cur e l, ∀ b ∈ l,
        f.end_time ≤ b.start_time ∨ b.end_time ≤ f.start_time := by
  induction l with
  | nil =>
      intro cur e _ f _ b hb
      exact absurd hb (List.not_mem_nil b)
  | cons c rest ih =>
      intro cur e hs f hf b hb
      cases hs
      case cons hrest hc =>
        simp only [calcFreeSweep, List.mem_append] at hf
        rcases hf with hf | hf
        · split at hf
          case isTrue hlt =>
            rcases List.mem_singleton.1 hf with rfl
            rcases List.mem_cons.1 hb with rfl | hb
            · exact Or.inl (le_refl _)
            · exact Or.inl (hc b hb)
          case isFalse => exact absurd hf (List.not_mem_nil f)
        · rcases List.mem_cons.1 hb with rfl | hb
          · refine Or.inr ?_
            have := calcFreeSweep_start_le rest (max cur b.end_time) e f hf
            exact le_trans (le_max_right _ _) this
          · exact ih (max cur c.end_time) e hrest f hf b hb

lemma mem_insertByScore {a x : CandidateSlot} {l : List CandidateSlot} :
    a ∈ insertByScore x l ↔ a = x ∨ a ∈ l := by
  induction l with
  | nil => simp [insertByScore]
  | cons y rest ih =>
      simp only [insertByScore]
      split
      · simp
      · simp only [List.mem_cons, ih]
        tauto

lemma mem_sortByScoreDesc {a : CandidateSlot} {l : List CandidateSlot} :
    a ∈ sortByScoreDesc l ↔ a ∈ l := by
  induction l with
  | nil => simp [sortByScoreDesc]
  | cons x rest ih =>
      simp only [sortByScoreDesc, mem_insertByScore, ih, List.mem_cons]

lemma pairwise_insertByScore (x : CandidateSlot) (l : List CandidateSlot)
    (hl : l.Pairwise rankedBefore)
    (hx : ∀ y ∈ l, x.score = y.score → x.start_time < y.start_time) :
    (insertByScore x l).Pairwise rankedBefore := by
  induction l with
  | nil => simp [insertByScore, List.pairwise_singleton]
  | cons y rest ih =>
      simp only [insertByScore]
      cases hl
      case cons hrest hy =>
        split
        case isTrue hyx =>
          refine List.Pairwise.cons ?_ (List.Pairwise.cons hy hrest)
          intro z hz
          have hzx : z.score ≤ x.score := by
            rcases List.mem_cons.1 hz with rfl | hz2
            · exact hyx
            · rcases hy z hz2 with hlt | ⟨heq, -⟩
              · exact le_trans (le_of_lt hlt) hyx
              · exact le_trans (le_of_eq heq.symm) hyx
          rcases lt_or_eq_of_le hzx with hlt | heqz
          · exact Or.inl hlt
          · exact Or.inr ⟨heqz.symm, hx z hz heqz.symm⟩
        case isFalse hyx =>
          refine List.Pairwise.cons ?_
            (ih hrest (fun z hz h => hx z (List.mem_cons_of_mem y hz) h))
          intro z hz
          rcases mem_insertByScore.1 hz with rfl | hz2
          · exact Or.inl (lt_of_not_le hyx)
          · exact hy z hz2

lemma sortByScoreDesc_lex (l : List CandidateSlot)
    (h : l.Pairwise fun a b => a.start_time < b.start_time) :
    (sortByScoreDesc l).Pairwise rankedBefore := by
  induction l with
  | nil => simp [sortByScoreDesc]
  | cons x rest ih =>
      cases h
      case cons hrest hx =>
        refine pairwise_insertByScore x (sortByScoreDesc rest) (ih hrest) ?_
        intro y hy _
        exact hx y (mem_sortByScoreDesc.1 hy)

lemma common_slots_pairwise_start (base : ParticipantData)
    (others : List ParticipantData) (duration_minutes : Nat) (priority : String)
    (work_start work_end : Nat)
    (h : base.free_slots.Pairwise fun a b => a.start_time < b.start_time) :
    (common_slots_of base others duration_minutes priority work_start
        work_end).Pairwise fun a b => a.start_time < b.start_time := by
  unfold common_slots_of
  rw [List.pairwise_map]
  exact List.Pairwise.sublist (List.filter_sublist _) h

/-- C1: `confirm_meeting` on a proposal whose status is already CONFIRMED does
not return an AlreadyConfirmed error: the code never inspects the status, so a
second confirmation with a valid slot index succeeds again, creates another
calendar event through the gateway and sends another confirmation email,
re-assigning the status. This theorem evaluates the embedded code at that
failing input, exhibiting the divergence from the claim. -/
theorem confirm_on_confirmed_reapplies :
    confirm_meeting envAllOk storeConfirmed pid1 0 =
      (ConfirmOutcome.success eventIdNew 600 630, storeConfirmed,
        { events := [eventSync], emails := 1 }) := by decide

/-- C2 counterexample: on the Scenario B input (participant A free
[09:00,12:00), participant B free [10:00,11:30), duration 30, work hours 9-17)
the analysis does not return a candidate slot [10:00,10:30): it returns no
candidate slots at all, because only the start-anchored slot [09:00,09:30) of
the driver interval is ever proposed and B cannot host it. -/
theorem scenario_b_no_candidates :
    ¬∃ cs n, analyze_optimal_slots [scenarioA, scenarioB] 30 prioMedium 9 17 3 =
        AnalyzeOutcome.success cs n ∧
      ∃ c ∈ cs, c.start_time = 600 ∧ c.end_time = 630 := by
  intro h
  obtain ⟨cs, n, heq, c, hc, -⟩ := h
  have h0 : analyze_optimal_slots [scenarioA, scenarioB] 30 prioMedium 9 17 3 =
      AnalyzeOutcome.success [] 0 := by decide
  rw [h0] at heq
  injection heq with h1 h2
  subst h1
  exact absurd hc (List.not_mem_nil c)

/-- C2 amended: on the Scenario B input the intersection proposes only the
start of the driver free interval, participant B is not free at 09:00, and so
the call succeeds with zero candidate slots. -/
theorem scenario_b_amended :
    works_for_all 30 540 [scenarioB] = false ∧
    analyze_optimal_slots [scenarioA, scenarioB] 30 prioMedium 9 17 3 =
      AnalyzeOutcome.success [] 0 := by decide

/-- C3 counterexample: a busy interval lying wholly after the horizon is not
clamped, so the free output [0,12) extends past the horizon end 10 and the
tiling property fails. -/
theorem calculate_free_slots_out_of_horizon :
    calculate_free_slots 0 10 [TimeSlot.mk 12 13 false] = [TimeSlot.mk 0 12 true] ∧
    ¬(∀ f ∈ calculate_free_slots 0 10 [TimeSlot.mk 12 13 false],
        f.end_time ≤ 10) := by decide

/-- C3 amended: provided every busy interval is well-formed (start ≤ end) and
starts no later than the horizon end, the free intervals stay inside the
horizon, are non-empty, sorted and mutually disjoint, every horizon instant is
covered by a free interval or a busy interval, and no free interval overlaps
any busy interval. -/
theorem calculate_free_slots_tiles (s e : Nat) (busy : List TimeSlot)
    (hse : s < e)
    (hwf : ∀ b ∈ busy, b.start_time ≤ b.end_time)
    (hbe : ∀ b ∈ busy, b.start_time ≤ e) :
    (∀ f ∈ calculate_free_slots s e busy,
        s ≤ f.start_time ∧ f.start_time < f.end_time ∧ f.end_time ≤ e) ∧
    (calculate_free_slots s e busy).Pairwise
      (fun f g => f.end_time ≤ g.start_time) ∧
    (∀ t, s ≤ t → t < e →
        (∃ f ∈ calculate_free_slots s e busy, f.start_time ≤ t ∧ t < f.end_time) ∨
        ∃ b ∈ busy, b.start_time ≤ t ∧ t < b.end_time) ∧
    (∀ f ∈ calculate_free_slots s e busy, ∀ b ∈ busy,
        f.end_time ≤ b.start_time ∨ b.end_time ≤ f.start_time) := by
  have hwf2 : ∀ b ∈ sortByStart busy, b.start_time ≤ b.end_time :=
    fun b hb => hwf b (mem_sortByStart.1 hb)
  have hbe2 : ∀ b ∈ sortByStart busy, b.start_time ≤ e :=
    fun b hb => hbe b (mem_sortByStart.1 hb)
  refine ⟨?_, ?_, ?_, ?_⟩
  · intro f hf
    exact calcFreeSweep_bounds (sortByStart busy) s e hbe2 f hf
  · exact calcFreeSweep_chain (sortByStart busy) s e hwf2
  · intro t hst hte
    rcases calcFreeSweep_cover (sortByStart busy) s e t hst hte with h | ⟨b, hb, hbt⟩
    · exact Or.inl h
    · exact Or.inr ⟨b, mem_sortByStart.1 hb, hbt⟩
  · intro f hf b hb
    exact calcFreeSweep_disjoint (sortByStart busy) s e
      (sortByStart_pairwise busy) f hf b (mem_sortByStart.2 hb)

/-- C3 witness: the tiling theorem applied to the concrete horizon [0,10) with
the single busy interval [2,5). -/
theorem calculate_free_slots_tiles_witness :
    ((0:Nat) < 10 ∧
      (∀ b ∈ [TimeSlot.mk 2 5 false], b.start_time ≤ b.end_time) ∧
      (∀ b ∈ [TimeSlot.mk 2 5 false], b.start_time ≤ 10)) ∧
    ((∀ f ∈ calculate_free_slots 0 10 [TimeSlot.mk 2 5 false],
        0 ≤ f.start_time ∧ f.start_time < f.end_time ∧ f.end_time ≤ 10) ∧
      (calculate_free_slots 0 10 [TimeSlot.mk 2 5 false]).Pairwise
        (fun f g => f.end_time ≤ g.start_time) ∧
      (∀ t : Nat, 0 ≤ t → t < 10 →
        (∃ f ∈ calculate_free_slots 0 10 [TimeSlot.mk 2 5 false],
            f.start_time ≤ t ∧ t < f.end_time) ∨
        ∃ b ∈ [TimeSlot.mk 2 5 false], b.start_time ≤ t ∧ t < b.end_time) ∧
      (∀ f ∈ calculate_free_slots 0 10 [TimeSlot.mk 2 5 false],
        ∀ b ∈ [TimeSlot.mk 2 5 false],
          f.end_time ≤ b.start_time ∨ b.end_time ≤ f.start_time)) :=
  ⟨⟨by decide, by decide, by decide⟩,
    calculate_free_slots_tiles 0 10 [TimeSlot.mk 2 5 false]
      (by decide) (by decide) (by decide)⟩

/-- C4 counterexample: at Monday 12:00 (minute 720) the code awards a +10
time-of-day bonus, but the claimed half-open ranges award +0, so the claimed
decomposition of the score fails at this input. -/
theorem calculate_slot_score_hour_twelve :
    calculate_slot_score 720 prioMedium 9 17 ≠
      100 + time_bonus_claimed (hourOf 720) + day_bonus (weekdayOf 720) +
        priority_adjustment prioMedium (weekdayOf 720) (hourOf 720) := by decide

/-- C4 amended: the score decomposes as base 100 plus a time-of-day bonus of
+20 for hours in {10,11,14,15} and +10 for the inclusive ranges [9,12] and
[13,16] (hours 12 and 16 included), plus the day-of-week bonus and the
priority adjustment. -/
theorem calculate_slot_score_decomposition (slot_start : Nat) (priority : String)
    (work_start work_end : Nat) :
    calculate_slot_score slot_start priority work_start work_end =
      100 + time_bonus (hourOf slot_start) + day_bonus (weekdayOf slot_start) +
        priority_adjustment priority (weekdayOf slot_start) (hourOf slot_start) := by
  simp only [calculate_slot_score, time_bonus, day_bonus, priority_adjustment]
  split_ifs <;> omega

/-- C5: the index check of `confirm_meeting` only bounds the index from
above. Index 5 on a three-slot pending proposal is rejected with the
invalid-index error and the store is unchanged (that part of the claim
holds), but index -1 is accepted: it confirms the third slot and flips the
status to confirmed, and index -5 raises an uncaught IndexError; neither
negative index yields the InvalidSlotIndex error the claim requires. -/
theorem confirm_negative_slot_index :
    (confirm_meeting envAllOk storePending3 pid2 5).1 =
      ConfirmOutcome.failure errInvalidSlotIndex ∧
    (confirm_meeting envAllOk storePending3 pid2 5).2.1 = storePending3 ∧
    (confirm_meeting envAllOk storePending3 pid2 (-1)).1 =
      ConfirmOutcome.success eventIdNew 720 750 ∧
    lookupProposal (confirm_meeting envAllOk storePending3 pid2 (-1)).2.1 pid2 =
      some { proposalPending3 with status := "confirmed" } ∧
    (confirm_meeting envAllOk storePending3 pid2 (-5)).1 =
      ConfirmOutcome.raised exnIndexError := by decide

/-- C6 counterexample: for a driver free interval [09:00,18:00) with duration
30 and work hours 9-17, the code rejects the slot (the interval end hour 18
exceeds 17) although the claimed test on the proposed meeting bounds
([09:00,09:30)) accepts it; consequently the analysis returns no slots. -/
theorem work_hours_checks_interval_end :
    rejected_by_work_hours 9 17
        { start_time := 540, end_time := 1080, duration_minutes := 540 } = true ∧
    ¬(hourOf 540 < 9 ∨ 17 < hourOf (540 + 30)) ∧
    analyze_optimal_slots [lateDriver] 30 prioMedium 9 17 3 =
      AnalyzeOutcome.success [] 0 := by decide

/-- C6 amended: a candidate is emitted exactly for the driver free intervals
whose own bounds pass the work-hours test (start hour at least workStart and
the free interval's end hour at most workEnd — not the proposed meeting's end),
that are long enough, and that every other participant can host. -/
theorem common_slots_work_hours_on_free_interval (base : ParticipantData)
    (others : List ParticipantData) (duration_minutes : Nat) (priority : String)
    (work_start work_end : Nat) (c : CandidateSlot) :
    c ∈ common_slots_of base others duration_minutes priority
        work_start work_end ↔
      ∃ slot ∈ base.free_slots,
        ¬(hourOf slot.start_time < work_start ∨
            work_end < hourOf slot.end_time) ∧
        duration_minutes ≤ slot.duration_minutes ∧
        works_for_all duration_minutes slot.start_time others = true ∧
        c = make_candidate duration_minutes priority work_start work_end slot := by
  unfold common_slots_of
  rw [List.mem_map]
  constructor
  · rintro ⟨slot, hmem, rfl⟩
    rw [List.mem_filter] at hmem
    obtain ⟨hmem, hpred⟩ := hmem
    simp only [Bool.and_eq_true, Bool.not_eq_true'] at hpred
    obtain ⟨⟨hrej, hshort⟩, hworks⟩ := hpred
    refine ⟨slot, hmem, ?_, ?_, hworks, rfl⟩
    · simp only [rejected_by_work_hours, Bool.or_eq_false_iff,
        decide_eq_false_iff_not] at hrej
      exact not_or.2 hrej
    · simp only [too_short, decide_eq_false_iff_not, Nat.not_lt] at hshort
      exact hshort
  · rintro ⟨slot, hmem, hrej, hdur, hworks, rfl⟩
    refine ⟨slot, ?_, rfl⟩
    rw [List.mem_filter]
    refine ⟨hmem, ?_⟩
    simp only [Bool.and_eq_true, Bool.not_eq_true']
    refine ⟨⟨?_, ?_⟩, hworks⟩
    · simp only [rejected_by_work_hours, Bool.or_eq_false_iff,
        decide_eq_false_iff_not]
      exact not_or.1 hrej
    · simp only [too_short, decide_eq_false_iff_not, Nat.not_lt]
      exact hdur

/-- C7 counterexample: a successful confirmation updates the status but never
sets the confirmed slot index — after confirming slot 0 of a pending
proposal the stored proposal has status confirmed while
`confirmed_slot_index` is still `none`, so status and slot index are not
updated together as the claim requires. -/
theorem confirm_does_not_set_slot_index :
    (confirm_meeting envAllOk storePending1 pid3 0).1 =
      ConfirmOutcome.success eventIdNew 600 630 ∧
    lookupProposal (confirm_meeting envAllOk storePending1 pid3 0).2.1 pid3 =
      some { id := pid3, meeting_request := mrSync,
             suggested_slots :=
               [{ start_time := 600, end_time := 630, available := true }],
             reasoning := reasonStub, status := "confirmed", created_at := 0,
             confirmed_slot_index := none } := by decide

/-- C7 amended: when `confirm_meeting` succeeds, the store changes only by
rewriting the status field of the addressed proposal to confirmed (every
other field, including the never-written `confirmed_slot_index`, is kept, as
`setConfirmed` updates nothing else); on every non-success outcome the store
is returned unchanged. -/
theorem confirm_meeting_frame (env : ConfirmEnv) (ps : ProposalStore)
    (pid : String) (idx : Int) :
    ((∃ eid cs ce, (confirm_meeting env ps pid idx).1 =
        ConfirmOutcome.success eid cs ce) ∧
      (confirm_meeting env ps pid idx).2.1 = setConfirmed ps pid) ∨
    ((∀ eid cs ce, (confirm_meeting env ps pid idx).1 ≠
        ConfirmOutcome.success eid cs ce) ∧
      (confirm_meeting env ps pid idx).2.1 = ps) := by
  unfold confirm_meeting
  split
  · exact Or.inr ⟨fun _ _ _ h => ConfirmOutcome.noConfusion h, rfl⟩
  · split
    · exact Or.inr ⟨fun _ _ _ h => ConfirmOutcome.noConfusion h, rfl⟩
    · split
      · exact Or.inr ⟨fun _ _ _ h => ConfirmOutcome.noConfusion h, rfl⟩
      · dsimp only
        split
        · exact Or.inr ⟨fun _ _ _ h => ConfirmOutcome.noConfusion h, rfl⟩
        · split
          · exact Or.inl ⟨⟨_, _, _, rfl⟩, rfl⟩
          · exact Or.inr ⟨fun _ _ _ h => ConfirmOutcome.noConfusion h, rfl⟩

/-- C8 counterexample: with one authenticated user and one denied user, the
availability loop queries both participants (the query list is the full
request list), and as the denied user's fetch succeeds with no busy data the
denied entry carries the whole horizon as a free interval rather than the
empty lists the claim requires. -/
theorem availability_denied_still_queried :
    agent_get_calendar_availability [userA] fetchEmptyBusy [userA, userB]
        0 1440 30 =
      [{ participant_email := userA, is_authenticated := true,
         free_slots :=
           [{ start_time := 0, end_time := 1440, duration_minutes := 1440 }],
         busy_slots := [] },
       { participant_email := userB, is_authenticated := false,
         free_slots :=
           [{ start_time := 0, end_time := 1440, duration_minutes := 1440 }],
         busy_slots := [] }] ∧
    queried_participants [userA, userB] = [userA, userB] := by decide

/-- C8 amended: every requested participant, denied ones included, is queried;
a denied participant's entries always carry `is_authenticated = false`, and
whenever the gateway fetch for that participant fails its interval lists are
empty. A succeeding fetch instead populates the entry from whatever the
gateway returned, so the lists need not be empty then (see the
counterexample, where a denied user's entry carries the whole horizon as a
free interval). -/
theorem availability_denied_entries (authenticated_users : List String)
    (fetch : String → Except String (List TimeSlot))
    (participant_emails : List String)
    (start_date end_date duration_minutes : Nat)
    (em : String) (hmem : em ∈ participant_emails)
    (hdenied : em ∉ authenticated_users) :
    em ∈ queried_participants participant_emails ∧
    ∀ entry ∈ agent_get_calendar_availability authenticated_users fetch
        participant_emails start_date end_date duration_minutes,
      entry.participant_email = em →
        entry.is_authenticated = false ∧
        ∀ msg, fetch em = Except.error msg →
          entry.free_slots = [] ∧ entry.busy_slots = [] := by
  refine ⟨hmem, ?_⟩
  intro entry hentry hemail
  simp only [agent_get_calendar_availability, List.mem_map] at hentry
  obtain ⟨r, hr, hentry⟩ := hentry
  simp only [get_calendar_availability, List.mem_map] at hr
  obtain ⟨em2, hem2, hr⟩ := hr
  have hnotacc : em ∉ (validate_access authenticated_users participant_emails).1 := by
    simp only [validate_access, List.mem_filter, decide_eq_true_eq]
    rintro ⟨-, hmem2⟩
    exact hdenied hmem2
  subst hentry
  rcases hfe : fetch em2 with msg0 | busy
  · rw [hfe] at hr
    subst hr
    simp only at hemail
    subst hemail
    refine ⟨?_, ?_⟩
    · simp only [decide_eq_false_iff_not]
      exact hnotacc
    · intro msg _
      exact ⟨rfl, rfl⟩
  · rw [hfe] at hr
    subst hr
    simp only at hemail
    subst hemail
    refine ⟨?_, ?_⟩
    · simp only [decide_eq_false_iff_not]
      exact hnotacc
    · intro msg hmsg
      rw [hfe] at hmsg
      exact Except.noConfusion hmsg

/-- C8 witness: the amended availability theorem applied to the concrete
denied user of the counterexample scenario. -/
theorem availability_denied_entries_witness :
    (userB ∈ [userA, userB] ∧ userB ∉ [userA]) ∧
    (userB ∈ queried_participants [userA, userB] ∧
      ∀ entry ∈ agent_get_calendar_availability [userA] fetchEmptyBusy
          [userA, userB] 0 1440 30,
        entry.participant_email = userB →
          entry.is_authenticated = false ∧
          ∀ msg, fetchEmptyBusy userB = Except.error msg →
            entry.free_slots = [] ∧ entry.busy_slots = []) :=
  ⟨⟨by decide, by decide⟩,
    availability_denied_entries [userA] fetchEmptyBusy [userA, userB]
      0 1440 30 userB (by decide) (by decide)⟩

/-- C9: given driver free intervals with strictly ascending starts (which is
how `calculate_free_slots` emits them), the ranked suggestion list is sorted
by score descending with ties broken by earlier start (the stable descending
sort preserves the start-ascending order of equal scores), and is truncated
to at most `max_suggestions` entries, whose Python default is 3. -/
theorem rank_slots_sorted_stable (base : ParticipantData)
    (others : List ParticipantData) (duration_minutes : Nat)
    (priority : String) (work_start work_end max_suggestions : Nat)
    (h : base.free_slots.Pairwise fun a b => a.start_time < b.start_time) :
    (rank_slots max_suggestions (common_slots_of base others duration_minutes
        priority work_start work_end)).length ≤ max_suggestions ∧
    (rank_slots max_suggestions (common_slots_of base others duration_minutes
        priority work_start work_end)).Pairwise rankedBefore ∧
    max_suggestions_default = 3 := by
  refine ⟨?_, ?_, rfl⟩
  · unfold rank_slots
    rw [List.length_take]
    exact Nat.min_le_left _ _
  · unfold rank_slots
    exact List.Pairwise.sublist (List.take_sublist _ _)
      (sortByScoreDesc_lex _
        (common_slots_pairwise_start base others duration_minutes priority
          work_start work_end h))

/-- C9 witness: the ranking theorem applied to a concrete driver with two
ascending free intervals. -/
theorem rank_slots_sorted_stable_witness :
    (twoSlotDriver.free_slots.Pairwise
      fun a b => a.start_time < b.start_time) ∧
    ((rank_slots 3 (common_slots_of twoSlotDriver [] 30 prioMedium
        9 17)).length ≤ 3 ∧
      (rank_slots 3 (common_slots_of twoSlotDriver [] 30 prioMedium
        9 17)).Pairwise rankedBefore ∧
      max_suggestions_default = 3) :=
  ⟨by decide,
    rank_slots_sorted_stable twoSlotDriver [] 30 prioMedium 9 17 3 (by decide)⟩

/-- C10: a schedule run whose tool phase yields an empty suggested-slot list
still reports success with the freshly generated proposal id, but stores
nothing under that id: the subsequent status lookup returns the 404 with
detail Proposal not found, and a subsequent confirmation fails with the
Proposal not found error, leaving the store unchanged. -/
theorem schedule_empty_slots_dangling_id (ps : ProposalStore) (pid : String)
    (mr : MeetingRequest) (reasoning : String) (now : Nat) (env : ConfirmEnv)
    (idx : Int) (hfresh : lookupProposal ps pid = none) :
    (process_agent_response ps pid mr [] reasoning now).1.success = true ∧
    (process_agent_response ps pid mr [] reasoning now).1.proposal_id =
      some pid ∧
    (process_agent_response ps pid mr [] reasoning now).2 = ps ∧
    get_proposal_status (process_agent_response ps pid mr [] reasoning now).2
        pid = ProposalStatusOutcome.http404 errProposalNotFound ∧
    (confirm_meeting env (process_agent_response ps pid mr [] reasoning now).2
        pid idx).1 = ConfirmOutcome.failure errProposalNotFound ∧
    (confirm_meeting env (process_agent_response ps pid mr [] reasoning now).2
        pid idx).2.1 = ps := by
  refine ⟨rfl, rfl, rfl, ?_, ?_, ?_⟩
  · show get_proposal_status ps pid = ProposalStatusOutcome.http404 errProposalNotFound
    rw [get_proposal_status, hfresh]
  · show (confirm_meeting env ps pid idx).1 =
      ConfirmOutcome.failure errProposalNotFound
    rw [confirm_meeting, hfresh]
  · show (confirm_meeting env ps pid idx).2.1 = ps
    rw [confirm_meeting, hfresh]

/-- C10 witness: the dangling-id theorem applied to the empty store and a
concrete fresh id. -/
theorem schedule_empty_slots_dangling_id_witness :
    lookupProposal ([] : ProposalStore) pidFresh = none ∧
    ((process_agent_response [] pidFresh mrSync [] reasonStub 0).1.success =
        true ∧
      (process_agent_response [] pidFresh mrSync [] reasonStub 0).1.proposal_id =
        some pidFresh ∧
      (process_agent_response [] pidFresh mrSync [] reasonStub 0).2 = [] ∧
      get_proposal_status
          (process_agent_response [] pidFresh mrSync [] reasonStub 0).2
          pidFresh = ProposalStatusOutcome.http404 errProposalNotFound ∧
      (confirm_meeting envAllOk
          (process_agent_response [] pidFresh mrSync [] reasonStub 0).2
          pidFresh 0).1 = ConfirmOutcome.failure errProposalNotFound ∧
      (confirm_meeting envAllOk
          (process_agent_response [] pidFresh mrSync [] reasonStub 0).2
          pidFresh 0).2.1 = []) :=
  ⟨rfl, schedule_empty_slots_dangling_id [] pidFresh mrSync reasonStub 0
    envAllOk 0 rfl⟩
